import Mathlib

/- Shallow embedding of the core of the unwrapped TypeScript library:
   src/core/result.ts, src/core/error.ts, src/core/asyncResult.ts,
   src/core/internals/listenerWrappers.ts, src/core/cache.ts, and the
   AsyncResultCollection module.

   Conventions of the embedding:
   - A JS promise is a single-resolution future; its eventual outcome
     (resolve value or rejection reason) is supplied externally at the
     point where the settlement continuation runs, as a PromiseOutcome.
   - Listener callbacks are identified by numeric ids; invoking a
     callback is modelled as emitting a CallEvent, so that theorems can
     speak about which callback was called, with which states.
   - JS Set and Map objects are modelled as insertion-ordered
     association lists (JS Set/Map iterate in insertion order).
   - Calls of the JS clock are an explicit argument (now : Nat).
-/

namespace Unwrapped

/-- Embedding of ErrorBase (src/core/error.ts): code, optional message.
The thrownError payload (an opaque foreign value) and the console-logging
flag of the constructor have no effect on any state machine in the library
and are omitted. -/
structure ErrorBase where
  code : String
  message : Option String := none
deriving DecidableEq, Repr

/-- Embedding of ResultState (src/core/result.ts): tagged union of a
success carrying a value and an error carrying an error value. -/
inductive ResultState (T E : Type) where
  | success (value : T)
  | error (error : E)
deriving DecidableEq, Repr

/-- Embedding of the Result class (src/core/result.ts): a wrapper around
its private state field. The TS union types E | E2 of the chaining
signatures are collapsed to a single error type E. -/
structure Result (T E : Type) where
  state : ResultState T E
deriving DecidableEq, Repr

/-- Result.ok -/
def Result.ok {T E : Type} (value : T) : Result T E := ⟨.success value⟩

/-- Result.err -/
def Result.err {T E : Type} (error : E) : Result T E := ⟨.error error⟩

/-- Result.isSuccess -/
def Result.isSuccess {T E : Type} (r : Result T E) : Bool :=
  match r.state with
  | .success _ => true
  | .error _ => false

/-- Result.isError -/
def Result.isError {T E : Type} (r : Result T E) : Bool :=
  match r.state with
  | .success _ => false
  | .error _ => true

/-- Result.unwrapOrNull: the success value, or null. -/
def Result.unwrapOrNull {T E : Type} (r : Result T E) : Option T :=
  match r.state with
  | .success v => some v
  | .error _ => none

/-- Result.flatChain (src/core/result.ts lines 163-168): on success apply
fn to the value; on error return a Result carrying the current error
without invoking fn. -/
def Result.flatChain {T E O : Type} (r : Result T E) (fn : T → Result O E) : Result O E :=
  match r.state with
  | .success v => fn v
  | .error e => Result.err e

/-- Instrumentation of Result.flatChain: the list of inputs on which the
supplied function is invoked, following exactly the branching of the
source (fn is called once, on the success value, and not at all when the
receiver is an error). -/
def Result.flatChainCalls {T E : Type} (r : Result T E) : List T :=
  match r.state with
  | .success v => [v]
  | .error _ => []

/-- Embedding of AsyncResultState (src/core/asyncResult.ts lines 9-12):
idle, loading (with optional progress; the pending promise of the loading
state is modelled externally, see PromiseOutcome), or a settled
ResultState. -/
inductive AsyncResultState (T E P : Type) where
  | idle
  | loading (progress : Option P)
  | success (value : T)
  | error (error : E)
deriving DecidableEq, Repr

/-- status equals loading -/
def AsyncResultState.isLoadingStatus {T E P : Type} : AsyncResultState T E P → Bool
  | .loading _ => true
  | _ => false

/-- status equals success -/
def AsyncResultState.isSuccessStatus {T E P : Type} : AsyncResultState T E P → Bool
  | .success _ => true
  | _ => false

/-- status equals error -/
def AsyncResultState.isErrorStatus {T E P : Type} : AsyncResultState T E P → Bool
  | .error _ => true
  | _ => false

/-- status is terminal (success or error) -/
def AsyncResultState.isSettled {T E P : Type} (s : AsyncResultState T E P) : Bool :=
  s.isSuccessStatus || s.isErrorStatus

/-- AsyncResult.unwrapOrNull on a state: the success value, or null. -/
def AsyncResultState.unwrapOrNull {T E P : Type} : AsyncResultState T E P → Option T
  | .success v => some v
  | _ => none

/-- The coercion implicit in assignments of the form state = res.state in
the source: a settled ResultState viewed as an AsyncResultState. -/
def ResultState.toAsyncState {T E P : Type} : ResultState T E → AsyncResultState T E P
  | .success v => .success v
  | .error e => .error e

/-- The eventual outcome of a JS promise: it resolves with a value or
rejects with a reason. -/
inductive PromiseOutcome (α ρ : Type) where
  | resolve (value : α)
  | reject (reason : ρ)
deriving DecidableEq, Repr

/-- A JS number restricted to the values relevant to the library:
a nonnegative integer or Infinity. -/
inductive JsNumber where
  | fin (n : Nat)
  | inf
deriving DecidableEq, Repr

/-- The comparison now - lastFetched > ttl on JS numbers, where the ttl
may be Infinity (in which case the comparison is false). -/
def jsGtNum (n : Nat) (t : JsNumber) : Bool :=
  match t with
  | .fin m => m < n
  | .inf => false

/-- AsyncResultListenerOptions (asyncResult.ts lines 57-61). A field left
at its default models a JS undefined field, which is falsy and which the
source turns into 0 for debounceLoadingMs. -/
structure AsyncResultListenerOptions where
  immediate : Bool := false
  callOnProgressUpdates : Bool := false
  debounceLoadingMs : Option JsNumber := none
deriving DecidableEq, Repr

/-- The default options object of listen: immediate and
callOnProgressUpdates set, no debounce. -/
def defaultListenerOptions : AsyncResultListenerOptions :=
  { immediate := true, callOnProgressUpdates := true }

/-- Embedding of an AsyncResult instance: its state and its listeners
set. A listener entry in the source is the record with the raw callback
and the options; the raw callback is identified here by a numeric id,
fresh ids coming from nextListenerId. A fresh instance (new AsyncResult())
is idle with no listeners. -/
structure AsyncResult (T E P : Type) where
  state : AsyncResultState T E P := .idle
  listeners : List (Nat × AsyncResultListenerOptions) := []
  nextListenerId : Nat := 0
deriving DecidableEq, Repr

/-- One invocation of a listener callback: which callback was called,
with the AsyncResult in which (new) state, and which oldState argument it
received (none for the immediate call in listen, which passes none). -/
structure CallEvent (T E P : Type) where
  listenerId : Nat
  newState : AsyncResultState T E P
  oldState : Option (AsyncResultState T E P)
deriving DecidableEq, Repr

/-- The guard in the private set-state setter (asyncResult.ts lines
188-191): a listener is called unless both the old and the new state are
loading and the listener did not opt into progress updates. -/
def notifyGuard {T E P : Type} (oldS newS : AsyncResultState T E P)
    (options : AsyncResultListenerOptions) : Bool :=
  (!oldS.isLoadingStatus || !newS.isLoadingStatus) || options.callOnProgressUpdates

/-- Embedding of the private set-state setter (asyncResult.ts lines
184-193): replace the state, then call the raw callback of every listener
entry, in insertion order, subject to notifyGuard. Returns the updated
instance together with the calls made. -/
def AsyncResult.setState {T E P : Type} (r : AsyncResult T E P)
    (newState : AsyncResultState T E P) :
    AsyncResult T E P × List (CallEvent T E P) :=
  let oldState := r.state
  ({ r with state := newState },
   r.listeners.filterMap (fun entry =>
     if notifyGuard oldState newState entry.2 then
       some ⟨entry.1, newState, some oldState⟩
     else none))

/-- AsyncResult.updateFromValue (lines 235-238): force a success state
and notify. -/
def AsyncResult.updateFromValue {T E P : Type} (r : AsyncResult T E P) (value : T) :
    AsyncResult T E P × List (CallEvent T E P) :=
  r.setState (.success value)

/-- AsyncResult.updateFromError (lines 245-248): force an error state and
notify. -/
def AsyncResult.updateFromError {T E P : Type} (r : AsyncResult T E P) (error : E) :
    AsyncResult T E P × List (CallEvent T E P) :=
  r.setState (.error error)

/-- Embedding of AsyncResult.listen (asyncResult.ts lines 398-439). The
source computes a debounce strategy wrapper from
options.debounceLoadingMs via DebounceStrategies, but the entry it then
registers is the record of the raw listener and the options — the
strategy wrapper is never stored anywhere. We embed exactly that: a fresh
id standing for the raw callback is appended to the listeners list
together with the options; if options.immediate the raw callback is
called once, with no oldState argument. Returns the updated instance, the
new listener id, and the calls made. -/
def AsyncResult.listen {T E P : Type} (r : AsyncResult T E P)
    (options : AsyncResultListenerOptions) :
    AsyncResult T E P × Nat × List (CallEvent T E P) :=
  let id := r.nextListenerId
  let r1 := { r with
    listeners := r.listeners ++ [(id, options)],
    nextListenerId := id + 1 }
  (r1, id, if options.immediate then [⟨id, r.state, none⟩] else [])

/-- The unsubscribe closure returned by listen (lines 435-438): cancel
any pending debounce timer (no timer is ever set, because the timed
strategy is never registered) and delete the entry from the listener
set. -/
def AsyncResult.unsubscribe {T E P : Type} (r : AsyncResult T E P) (id : Nat) :
    AsyncResult T E P :=
  { r with listeners := r.listeners.filter (fun entry => entry.1 != id) }

/-- Embedding of DebounceStrategies (src/core/internals/listenerWrappers.ts)
as delivery decisions: whether each wrapper, had it been registered, would
forward a given state change to the actual listener at the moment of the
change. listen computes these wrappers but registers the raw listener
instead, so in the source they are dead code; they are included here to
record the intended debounce semantics. The immediate strategy forwards
everything. -/
def DebounceStrategies.immediateDelivers {T E P : Type} (_s : AsyncResultState T E P) : Bool :=
  true

/-- DebounceStrategies.ignoreLoading forwards only non-loading states. -/
def DebounceStrategies.ignoreLoadingDelivers {T E P : Type} (s : AsyncResultState T E P) : Bool :=
  !s.isLoadingStatus

/-- DebounceStrategies.timed forwards a non-loading state at once; a
loading state is forwarded only after the configured delay, and only if
the state is then still loading. -/
def DebounceStrategies.timedDeliversImmediately {T E P : Type} (s : AsyncResultState T E P) : Bool :=
  !s.isLoadingStatus

/-- The inner resultStatePromise of updateFromValuePromise (lines
290-297): await the value promise; on resolve wrap the value with
Result.ok; on reject return Result.err of the caught rejection itself,
cast to E. The rejection reason type of the value promise is therefore E
in this model, mirroring the cast. -/
def valuePromiseToResult {T E : Type} (outcome : PromiseOutcome T E) : Result T E :=
  match outcome with
  | .resolve v => Result.ok v
  | .reject e => Result.err e

/-- The sentinel error code used for defect errors. -/
def defectCode : String := "defect_on_updateFromResultPromise"

/-- The message of the defect error constructed by
updateFromResultPromise when the given promise rejects. -/
def defectMessage : String := "The promise provided to AsyncResult rejected"

/-- The defect ErrorBase constructed by updateFromResultPromise on
rejection of the given promise (line 384). -/
def defectError : ErrorBase := { code := defectCode, message := some defectMessage }

/-- Synchronous part of updateFromResultPromise (line 378): the instance
is put in loading state through the notifying setter, before any
continuation of the promise can run. -/
def AsyncResult.updateFromResultPromiseStart {T E P : Type} (r : AsyncResult T E P) :
    AsyncResult T E P × List (CallEvent T E P) :=
  r.setState (.loading none)

/-- Settlement continuation of updateFromResultPromise (lines 379-387),
at the error type ErrorBase (the source constructs an ErrorBase and casts
it to E): if the result promise resolves, adopt the state of the
resolved Result; if it rejects (reason modelled as an opaque String), the
instance is updated to an error state carrying the defect sentinel. -/
def resultPromiseSettle {T P : Type} (outcome : PromiseOutcome (Result T ErrorBase) String) :
    AsyncResultState T ErrorBase P :=
  match outcome with
  | .resolve res => res.state.toAsyncState
  | .reject _ => .error defectError

/-- Settled state reached by fromValuePromise (lines 274-278 with
289-299) once the underlying value promise has an outcome: the caught or
wrapped Result travels through resultStatePromise, which never rejects,
into the settlement continuation of updateFromResultPromise. -/
def fromValuePromiseSettle {T P : Type} (outcome : PromiseOutcome T ErrorBase) :
    AsyncResultState T ErrorBase P :=
  resultPromiseSettle (.resolve (valuePromiseToResult outcome))

/-- The cell built by fromValuePromise and fromResultPromise (lines
274-278 and 362-366) at the moment the constructor returns: a new idle
AsyncResult immediately updated from the promise, that is, put in loading
state. -/
def fromPromiseInitialCell (T E P : Type) : AsyncResult T E P :=
  (AsyncResult.updateFromResultPromiseStart {}).1

/-- Embedding of waitForSettled (lines 308-318) as a function on states:
if loading, adopt the outcome of the pending promise (the state of a
resolved Result, or on rejection an error state carrying the rejection
reason cast to E); otherwise — idle or already settled — the state is
returned unchanged. (waitForSettled assigns the state field directly,
without notifying listeners.) -/
def waitForSettledResult {T E P : Type} (s : AsyncResultState T E P)
    (outcome : PromiseOutcome (Result T E) E) : AsyncResultState T E P :=
  match s with
  | .loading _ =>
    match outcome with
    | .resolve r => r.state.toAsyncState
    | .reject e => .error e
  | s => s

/-- The scan of ensureAvailable (asyncResult.ts lines 713-724): walk the
awaited inputs in input order and return the first error found. -/
def firstErrorIn {T E P : Type} : List (AsyncResultState T E P) → Option E
  | [] => none
  | .error e :: _ => some e
  | _ :: rest => firstErrorIn rest

/-- The continuation of ensureAvailable over the awaited inputs: the
first error in input order wins; otherwise collect unwrapOrNull of every
awaited input (the source asserts the values non-null with a postfix
bang; an idle input really does contribute null). -/
def ensureAvailableScan {T E P : Type} (settled : List (AsyncResultState T E P)) :
    Result (List (Option T)) E :=
  match firstErrorIn settled with
  | some e => Result.err e
  | none => Result.ok (settled.map AsyncResultState.unwrapOrNull)

/-- State of ensureAvailable(results) at the moment the call returns
(lines 709-711 and 727): an empty input returns AsyncResult.ok of the
empty list at once; otherwise the result is a fromResultPromise instance,
hence loading. -/
def ensureAvailableInitial {T E P : Type} (inputs : List (AsyncResultState T E P)) :
    AsyncResultState (List (Option T)) E P :=
  if inputs.length = 0 then .success [] else .loading none

/-- Settled state of a nonempty ensureAvailable: each input is awaited
with its own promise outcome (Promise.all preserves input order), then
the scan runs. -/
def ensureAvailableSettled {T E P : Type} (inputs : List (AsyncResultState T E P))
    (outcomes : List (PromiseOutcome (Result T E) E)) :
    Result (List (Option T)) E :=
  ensureAvailableScan (List.zipWith waitForSettledResult inputs outcomes)

/-- The refetch policy enum of the cache (src/core/cache.ts lines 4-6). -/
inductive RefetchPolicy where
  | refetch
  | ifError
  | noRefetch
deriving DecidableEq, Repr

/-- KeyedAsyncCacheRefetchOptions (cache.ts lines 4-6). -/
structure KeyedAsyncCacheRefetchOptions where
  policy : RefetchPolicy
deriving DecidableEq, Repr

/-- The module constant _defaultRefetchOptions (cache.ts line 16). -/
def _defaultRefetchOptions : KeyedAsyncCacheRefetchOptions := ⟨.noRefetch⟩

/-- CacheItem (cache.ts lines 8-14). The owned AsyncResult instance is
identified by resultId into the heap of the cache; lastFetched is only
stamped when a fetch promise settles, never at loading start. -/
structure CacheItem (P : Type) where
  resultId : Nat
  fetcherParams : P
  valid : Bool
  lastFetched : Option Nat := none
  ttl : Option JsNumber := none
deriving DecidableEq, Repr

/-- Map.get on an insertion-ordered association list. -/
def findAssoc {κ α : Type} [DecidableEq κ] : List (κ × α) → κ → Option α
  | [], _ => none
  | (k, v) :: rest, key => if k = key then some v else findAssoc rest key

/-- Map.set on an insertion-ordered association list: replace in place if
the key is present, else append. -/
def setAssoc {κ α : Type} [DecidableEq κ] : List (κ × α) → κ → α → List (κ × α)
  | [], key, v => [(key, v)]
  | (k, v0) :: rest, key, v =>
    if k = key then (key, v) :: rest else (k, v0) :: setAssoc rest key v

/-- A KeyedAsyncCache instance (cache.ts lines 33-49). cache is the
key-to-CacheItem Map; heap maps each resultId to the state of the owned
AsyncResult instance (listeners on cache results play no role in the
claims and are not modelled); fetchLog records, in call order, the params
of every invocation of the fetcher — each such fetch is pending until
settleFetch supplies the Result its promise resolves to. The constructor
defaults are paramsToKey as given and cacheTTL Infinity. -/
structure KeyedAsyncCache (P V E : Type) where
  paramsToKey : P → String
  cacheTTL : JsNumber := .inf
  cache : List (String × CacheItem P) := []
  heap : List (Nat × AsyncResultState V E Unit) := []
  nextId : Nat := 0
  fetchLog : List P := []

/-- makeCacheItem (cache.ts lines 51-58): a fresh valid item whose ttl is
the argument if given, else the cacheTTL of the instance. -/
def KeyedAsyncCache.makeCacheItem {P V E : Type} (c : KeyedAsyncCache P V E)
    (resultId : Nat) (fetcherParams : P) (ttlArg : Option JsNumber) : CacheItem P :=
  { resultId := resultId,
    fetcherParams := fetcherParams,
    ttl := some (ttlArg.getD c.cacheTTL),
    valid := true }

/-- shouldRefetch (cache.ts lines 60-77): an invalid item always
refetches; then the policy refetch always refetches and if-error
refetches on a current error state; otherwise (no-refetch) refetch
exactly when ttl and lastFetched are both defined and the wall-clock age
exceeds the ttl. -/
def KeyedAsyncCache.shouldRefetch {P V E : Type} (c : KeyedAsyncCache P V E)
    (existingResult : CacheItem P) (refetch : KeyedAsyncCacheRefetchOptions)
    (now : Nat) : Bool :=
  if existingResult.valid = false then true
  else if refetch.policy = .refetch then true
  else if refetch.policy = .ifError then
    ((findAssoc c.heap existingResult.resultId).getD .idle).isErrorStatus
  else
    match existingResult.ttl, existingResult.lastFetched with
    | some ttl, some lastFetched => jsGtNum (now - lastFetched) ttl
    | _, _ => false

/-- updateOrCreateCacheItemFromParams (cache.ts lines 79-89): invoke the
fetcher with params (recorded in fetchLog; the resulting promise is
pending until settleFetch). With an existing item,
updateFromResultPromise puts the same owned AsyncResult instance in
loading state and the fields of the item are untouched — valid is NOT
reset and lastFetched is only stamped when the promise settles. With no
item, a fresh AsyncResult is allocated and a fresh valid item is
created. -/
def KeyedAsyncCache.updateOrCreateCacheItemFromParams {P V E : Type}
    (c : KeyedAsyncCache P V E) (params : P) (existing : Option (CacheItem P)) :
    KeyedAsyncCache P V E × CacheItem P :=
  match existing with
  | some cacheItem =>
    ({ c with
        heap := setAssoc c.heap cacheItem.resultId (.loading none),
        fetchLog := c.fetchLog ++ [params] },
     cacheItem)
  | none =>
    let cacheItem := c.makeCacheItem c.nextId params none
    ({ c with
        heap := setAssoc c.heap c.nextId (.loading none),
        nextId := c.nextId + 1,
        fetchLog := c.fetchLog ++ [params] },
     cacheItem)

/-- get (cache.ts lines 97-112). The refetch argument is optional:
none models an omitted argument, to which the default
_defaultRefetchOptions applies. now stands for the JS clock. Returns the
updated cache and the resultId of the AsyncResult instance the call
returns. On a hit without refetch the cache is untouched; on a hit with
refetch the same item is refetched in place; on a miss a fresh entry is
stored. -/
def KeyedAsyncCache.get {P V E : Type} (c : KeyedAsyncCache P V E) (params : P)
    (refetchArg : Option KeyedAsyncCacheRefetchOptions) (now : Nat) :
    KeyedAsyncCache P V E × Nat :=
  let refetch := refetchArg.getD _defaultRefetchOptions
  let key := c.paramsToKey params
  match findAssoc c.cache key with
  | some cacheItem =>
    if c.shouldRefetch cacheItem refetch now = false then
      (c, cacheItem.resultId)
    else
      let updated := c.updateOrCreateCacheItemFromParams params (some cacheItem)
      (updated.1, cacheItem.resultId)
  | none =>
    let created := c.updateOrCreateCacheItemFromParams params none
    ({ created.1 with cache := setAssoc created.1.cache key created.2 },
     created.2.resultId)

/-- Settlement of a pending fetch promise for the entry at key: the
continuation installed by updateFromResultPromise sets the state of the
owned AsyncResult to the state of the resolved Result, and the then
handler attached in updateOrCreateCacheItemFromParams stamps lastFetched
with the current clock. -/
def KeyedAsyncCache.settleFetch {P V E : Type} (c : KeyedAsyncCache P V E)
    (key : String) (res : Result V E) (now : Nat) : KeyedAsyncCache P V E :=
  match findAssoc c.cache key with
  | some cacheItem =>
    { c with
        heap := setAssoc c.heap cacheItem.resultId res.state.toAsyncState,
        cache := setAssoc c.cache key { cacheItem with lastFetched := some now } }
  | none => c

/-- getSettledState (cache.ts lines 121-125): get, then waitForSettled on
the returned AsyncResult — whose pending outcome, when it is loading, is
supplied as outcome — and return the resulting state. -/
def KeyedAsyncCache.getSettledState {P V E : Type} (c : KeyedAsyncCache P V E)
    (params : P) (refetchArg : Option KeyedAsyncCacheRefetchOptions) (now : Nat)
    (outcome : PromiseOutcome (Result V E) E) : AsyncResultState V E Unit :=
  let got := c.get params refetchArg now
  waitForSettledResult ((findAssoc got.1.heap got.2).getD .idle) outcome

/-- invalidateKey (cache.ts lines 151-156): mark the entry invalid; the
entry stays in the cache. -/
def KeyedAsyncCache.invalidateKey {P V E : Type} (c : KeyedAsyncCache P V E)
    (key : String) : KeyedAsyncCache P V E :=
  match findAssoc c.cache key with
  | some cacheItem =>
    { c with cache := setAssoc c.cache key { cacheItem with valid := false } }
  | none => c

/-- invalidateParams (cache.ts lines 162-165): invalidateKey of the
derived key. -/
def KeyedAsyncCache.invalidateParams {P V E : Type} (c : KeyedAsyncCache P V E)
    (params : P) : KeyedAsyncCache P V E :=
  c.invalidateKey (c.paramsToKey params)

/-- The aggregate state of an AsyncResultCollection. -/
inductive AsyncResultCollectionState where
  | anyLoading
  | allSettled
deriving DecidableEq, Repr

/-- An AsyncResultCollection instance (src/unnamed/part_004): the key to
tracked-task Map and the aggregate state. Tracked tasks are represented
by their current AsyncResultState. The subscription add installs fires
only on later transitions of the task (the options argument passed to
listen there is the boolean true, not an object, so no immediate call
occurs). Collection-level listeners play no role in the claims and are
not modelled. -/
structure AsyncResultCollection (V E : Type) where
  list : List (String × AsyncResultState V E Unit) := []
  state : AsyncResultCollectionState := .allSettled
deriving DecidableEq, Repr

/-- anyLoading (part_004 lines 200-207): any tracked task loading. -/
def AsyncResultCollection.anyLoading {V E : Type} (c : AsyncResultCollection V E) : Bool :=
  c.list.any (fun item => item.2.isLoadingStatus)

/-- The private _onTaskFinished (part_004 lines 91-93): recompute the
aggregate state from anyLoading. -/
def AsyncResultCollection.onTaskFinished {V E : Type} (c : AsyncResultCollection V E) :
    AsyncResultCollection V E :=
  { c with state := if c.anyLoading then .anyLoading else .allSettled }

/-- add (part_004 lines 149-168): subscribe to the task (with
removeOnSettle the listener will, on a later settlement of the task,
recompute the aggregate and delete the entry), store it under key, and
set the aggregate state unconditionally to any-loading. -/
def AsyncResultCollection.add {V E : Type} (c : AsyncResultCollection V E)
    (key : String) (task : AsyncResultState V E Unit) (_removeOnSettle : Bool) :
    AsyncResultCollection V E :=
  { c with list := setAssoc c.list key task, state := .anyLoading }

/-- remove (part_004 lines 175-183): unsubscribe, delete the entry, and
recompute the aggregate state. Returns whether an entry was removed. -/
def AsyncResultCollection.remove {V E : Type} (c : AsyncResultCollection V E)
    (key : String) : AsyncResultCollection V E × Bool :=
  match findAssoc c.list key with
  | none => (c, false)
  | some _ =>
    let c1 : AsyncResultCollection V E :=
      { c with list := c.list.filter (fun item => item.1 != key) }
    (c1.onTaskFinished, true)

/-- A fresh idle AsyncResult instance at concrete types, for concrete
evaluations. -/
def freshCell : AsyncResult Nat ErrorBase Unit := {}

/-- A concrete domain error used in concrete evaluations. -/
def boomError : ErrorBase := { code := "boom" }

/-- A cache over Nat params with ttl 100 and the default key
derivation. -/
def natCache100 : KeyedAsyncCache Nat Nat ErrorBase :=
  { paramsToKey := fun n => toString n, cacheTTL := .fin 100 }

/-- natCache100 after a first get at time 0: a miss, starting fetch 1. -/
def c4cache1 : KeyedAsyncCache Nat Nat ErrorBase := (natCache100.get 5 none 0).1

/-- The key of params 5 under the default key derivation. -/
def key5 : String := "5"

/-- c4cache1 after fetch 1 settles to success 10 at time 10 (stamping
lastFetched). -/
def c4cache2 : KeyedAsyncCache Nat Nat ErrorBase :=
  c4cache1.settleFetch key5 (Result.ok 10) 10

/-- A get on c4cache2 at time 200: the entry is valid and settled, its
age 190 exceeds ttl 100, so the entry is refetched in place (fetch 2). -/
def c4get3 : KeyedAsyncCache Nat Nat ErrorBase × Nat := c4cache2.get 5 none 200

/-- A get right after, at time 201, while fetch 2 is still pending. -/
def c4get4 : KeyedAsyncCache Nat Nat ErrorBase × Nat := (c4get3.1).get 5 none 201

/-- A cache over Nat params with the default (unbounded) ttl. -/
def natCacheInf : KeyedAsyncCache Nat Nat ErrorBase :=
  { paramsToKey := fun n => toString n }

/-- natCacheInf after a first get of params 7 at time 0: one pending
fetch, lastFetched not yet stamped. -/
def c4pending : KeyedAsyncCache Nat Nat ErrorBase := (natCacheInf.get 7 none 0).1

/-- The cache item created by that first get of params 7. -/
def item7 : CacheItem Nat :=
  { resultId := 0, fetcherParams := 7, valid := true, lastFetched := none, ttl := some .inf }

/-- A valid, settled cache item over params 5. -/
def item5 : CacheItem Nat :=
  { resultId := 0, fetcherParams := 5, valid := true, lastFetched := some 10, ttl := some .inf }

/-- A one-entry cache whose entry for params 5 is valid and settled, used
to exercise invalidation. -/
def c7base : KeyedAsyncCache Nat Nat ErrorBase :=
  { paramsToKey := fun n => toString n,
    cache := [(key5, item5)],
    heap := [(0, .success 10)],
    nextId := 1,
    fetchLog := [5] }

/-- An empty collection, for concrete evaluations. -/
def emptyCollection : AsyncResultCollection Nat ErrorBase := {}

/-- A concrete collection key, for concrete evaluations. -/
def keyK : String := "k"

/-- Listener options with a finite 50ms debounce and nothing else set,
mirroring a listen call with the object holding only debounceLoadingMs. -/
def debounce50Options : AsyncResultListenerOptions :=
  { debounceLoadingMs := some (.fin 50) }

/-- Listener options with an infinite debounce and nothing else set. -/
def debounceInfOptions : AsyncResultListenerOptions :=
  { debounceLoadingMs := some .inf }

/- ===================== Helper lemmas ===================== -/

/-- Map.get after Map.set at the same key yields the stored value. -/
theorem findAssoc_setAssoc_self {κ α : Type} [DecidableEq κ]
    (l : List (κ × α)) (key : κ) (v : α) :
    findAssoc (setAssoc l key v) key = some v := by
  induction l with
  | nil => simp [setAssoc, findAssoc]
  | cons hd rest ih =>
    obtain ⟨k0, v0⟩ := hd
    by_cases h : k0 = key
    · simp [setAssoc, findAssoc, h]
    · simp [setAssoc, findAssoc, h, ih]

/-- Filtering a list twice with the same predicate equals filtering
once. -/
theorem filter_twice {α : Type} (p : α → Bool) (l : List α) :
    (l.filter p).filter p = l.filter p := by
  induction l with
  | nil => rfl
  | cons a t ih =>
    by_cases h : p a = true
    · simp [List.filter_cons, h, ih]
    · simp [List.filter_cons, h, ih]

/-- firstErrorIn finds nothing exactly when no element is an error. -/
theorem firstErrorIn_eq_none_iff {T E P : Type} (l : List (AsyncResultState T E P)) :
    firstErrorIn l = none ↔ ∀ s ∈ l, s.isErrorStatus = false := by
  induction l with
  | nil => simp [firstErrorIn]
  | cons s rest ih =>
    cases s with
    | idle => simp [firstErrorIn, AsyncResultState.isErrorStatus, ih]
    | loading p => simp [firstErrorIn, AsyncResultState.isErrorStatus, ih]
    | success v => simp [firstErrorIn, AsyncResultState.isErrorStatus, ih]
    | error e => simp [firstErrorIn, AsyncResultState.isErrorStatus]

/- ===================== Claim theorems ===================== -/

/-- Claim C1 (code bug, evaluated at the failing input): listen stores the
record of the raw listener and its options — not the computed debounce
strategy wrapper — so the set-state setter invokes the raw callback
synchronously on a transition to loading. A listener registered with
debounceLoadingMs 50 receives the loading state immediately (the claim says
delivery is delayed 50ms and suppressed if a terminal state arrives first),
and a listener registered with debounceLoadingMs Infinity receives it too
(the claim says it never does). The last two conjuncts record that the
never-registered DebounceStrategies wrappers would indeed not have
forwarded the loading state at that moment. -/
theorem C1_debounce_dead_code_eval :
    ((freshCell.listen debounce50Options).1.setState (.loading none)).2
      = [⟨(freshCell.listen debounce50Options).2.1, .loading none, some .idle⟩]
    ∧ ((freshCell.listen debounceInfOptions).1.setState (.loading none)).2
      = [⟨(freshCell.listen debounceInfOptions).2.1, .loading none, some .idle⟩]
    ∧ DebounceStrategies.ignoreLoadingDelivers
        ((.loading none : AsyncResultState Nat ErrorBase Unit)) = false
    ∧ DebounceStrategies.timedDeliversImmediately
        ((.loading none : AsyncResultState Nat ErrorBase Unit)) = false :=
  ⟨rfl, rfl, rfl, rfl⟩

/-- Claim C2 counterexample: a value promise that rejects with an ErrorBase
coded boom settles the AsyncResult built by fromValuePromise to an error
state carrying that rejection value itself — its code is boom, not the
fixed defect sentinel the claim requires. -/
theorem C2_counterexample_value_rejection_not_defect :
    fromValuePromiseSettle (.reject boomError)
      = (.error boomError : AsyncResultState Nat ErrorBase Unit)
    ∧ boomError.code ≠ defectCode :=
  ⟨rfl, by decide⟩

/-- Claim C2 amended: a rejection of the underlying promise always becomes
an error state on the same channel (never an escaped rejection), but only
fromResultPromise wraps it in the fixed defect sentinel; fromValuePromise
stores the caught rejection value itself (cast to E) as the error. -/
theorem C2_amended_rejections_become_errors (e : ErrorBase) (reason : String) :
    fromValuePromiseSettle (.reject e) = (.error e : AsyncResultState Nat ErrorBase Unit)
    ∧ resultPromiseSettle (.reject reason)
      = (.error defectError : AsyncResultState Nat ErrorBase Unit)
    ∧ (fromValuePromiseSettle (.reject e) : AsyncResultState Nat ErrorBase Unit).isErrorStatus
      = true
    ∧ (resultPromiseSettle (.reject reason) : AsyncResultState Nat ErrorBase Unit).isErrorStatus
      = true :=
  ⟨rfl, rfl, rfl, rfl⟩

/-- Claim C3 counterexample: updateFromValue on a fresh idle instance is a
single set-state step that moves the state from idle directly to success 5
— a transition from idle to a terminal state with no intervening loading
state, which the claim says never occurs. -/
theorem C3_counterexample_updateFromValue_skips_loading :
    freshCell.state = .idle
    ∧ (freshCell.updateFromValue 5).1.state = .success 5 :=
  ⟨rfl, rfl⟩

/-- Claim C3 amended: the promise-driven flows never skip loading — the
instance built by fromValuePromise or fromResultPromise is loading
immediately after construction, and every settlement outcome of those
flows is terminal (success or error, never idle); the direct mutators
updateFromValue and updateFromError, however, can move an idle instance
straight to a terminal state. -/
theorem C3_amended_promise_flows_never_skip_loading
    (out : PromiseOutcome Nat ErrorBase)
    (rout : PromiseOutcome (Result Nat ErrorBase) String) :
    (fromPromiseInitialCell Nat ErrorBase Unit).state = .loading none
    ∧ (fromValuePromiseSettle out : AsyncResultState Nat ErrorBase Unit).isSettled = true
    ∧ (resultPromiseSettle rout : AsyncResultState Nat ErrorBase Unit).isSettled = true := by
  refine ⟨rfl, ?_, ?_⟩
  · cases out <;> rfl
  · rcases rout with r | reason
    · rcases r with ⟨s⟩
      rcases s with v | e <;> rfl
    · rfl

/-- Claim C5: flatChain on an error Result returns a Result carrying the
same error and invokes its function on no input at all; consequently, in
ok(x).flatChain(f1).flatChain(f2), when f1 x is an error, f2 is invoked on
no input (the call list of the second flatChain is empty, independently of
f2). -/
theorem C5_flatChain_short_circuits
    (e : ErrorBase) (fn : Nat → Result Nat ErrorBase)
    (x : Nat) (f1 : Nat → Result Nat ErrorBase)
    (h : (f1 x).isError = true) :
    (Result.err e : Result Nat ErrorBase).flatChain fn = Result.err e
    ∧ (Result.err e : Result Nat ErrorBase).flatChainCalls = []
    ∧ ((Result.ok x : Result Nat ErrorBase).flatChain f1).flatChainCalls = [] := by
  refine ⟨rfl, rfl, ?_⟩
  show (f1 x).flatChainCalls = []
  unfold Result.isError at h
  unfold Result.flatChainCalls
  cases hst : (f1 x).state with
  | success v =>
    rw [hst] at h
    exact absurd h (by simp)
  | error e2 => rfl

/-- Witness for C5 at concrete inputs. -/
theorem C5_witness :
    (Result.err boomError : Result Nat ErrorBase).flatChain (fun n => Result.ok n)
      = Result.err boomError
    ∧ (Result.err boomError : Result Nat ErrorBase).flatChainCalls = []
    ∧ ((Result.ok 1 : Result Nat ErrorBase).flatChain
        (fun _ => (Result.err boomError : Result Nat ErrorBase))).flatChainCalls = [] :=
  C5_flatChain_short_circuits boomError (fun n => Result.ok n) 1
    (fun _ => (Result.err boomError : Result Nat ErrorBase)) rfl

/-- Claim C6 counterexample: an idle input never settles successfully, yet
ensureAvailable over the one-element list holding it settles successfully
(waitForSettled passes an idle input through unchanged, and the scan treats
every non-error as available, collecting unwrapOrNull, which is null) — the
exactly-when direction of the claim fails. -/
theorem C6_counterexample_idle_input_counts_available :
    ensureAvailableSettled [(.idle : AsyncResultState Nat ErrorBase Unit)]
        [.resolve (Result.ok 0)]
      = Result.ok [none]
    ∧ (AsyncResultState.idle : AsyncResultState Nat ErrorBase Unit).isSuccessStatus = false :=
  ⟨rfl, rfl⟩

/-- Claim C6 amended: the empty input list settles immediately to an empty
success and a nonempty call starts out loading; after awaiting each input
with its own promise outcome, the result is the first error in input order
if any awaited input is an error, and otherwise a success carrying the
ordered unwrapOrNull values of the awaited inputs (inputs that settled
successfully contribute their values; an idle input slips through as a
null) — so the result is a success exactly when no awaited input is an
error, rather than exactly when every input settled successfully. -/
theorem C6_amended_ensureAvailable_characterised
    (inputs : List (AsyncResultState Nat ErrorBase Unit))
    (outs : List (PromiseOutcome (Result Nat ErrorBase) ErrorBase)) :
    ensureAvailableInitial ([] : List (AsyncResultState Nat ErrorBase Unit)) = .success []
    ∧ (inputs ≠ [] → ensureAvailableInitial inputs = .loading none)
    ∧ (∀ e, firstErrorIn (List.zipWith waitForSettledResult inputs outs) = some e →
        ensureAvailableSettled inputs outs = Result.err e)
    ∧ (firstErrorIn (List.zipWith waitForSettledResult inputs outs) = none →
        ensureAvailableSettled inputs outs
          = Result.ok ((List.zipWith waitForSettledResult inputs outs).map
              AsyncResultState.unwrapOrNull))
    ∧ ((ensureAvailableSettled inputs outs).isSuccess = true ↔
        ∀ s ∈ List.zipWith waitForSettledResult inputs outs, s.isErrorStatus = false) := by
  refine ⟨rfl, ?_, ?_, ?_, ?_⟩
  · intro h
    unfold ensureAvailableInitial
    rw [if_neg (fun hl => h (List.length_eq_zero.mp hl))]
  · intro e he
    unfold ensureAvailableSettled ensureAvailableScan
    rw [he]
  · intro he
    unfold ensureAvailableSettled ensureAvailableScan
    rw [he]
  · rw [← firstErrorIn_eq_none_iff]
    unfold ensureAvailableSettled ensureAvailableScan
    cases hfe : firstErrorIn (List.zipWith waitForSettledResult inputs outs) with
    | none => simp [Result.isSuccess, Result.ok]
    | some e => simp [Result.isSuccess, Result.err]

/-- Witness for C6 at the concrete inputs of the claim example: a success
and an error input settle to the error. -/
theorem C6_amended_witness :
    ensureAvailableSettled
        [(.success 1 : AsyncResultState Nat ErrorBase Unit), .error boomError]
        [.resolve (Result.ok 1), .resolve (Result.ok 2)]
      = Result.err boomError :=
  (C6_amended_ensureAvailable_characterised
      [.success 1, .error boomError]
      [.resolve (Result.ok 1), .resolve (Result.ok 2)]).2.2.1 boomError (by decide)

/-- Claim C8 (code bug, evaluated at the failing input): add sets the
aggregate state to any-loading unconditionally and does not recompute it,
so adding an already-settled task to an empty collection leaves the
aggregate at any-loading although no tracked outcome is loading —
contradicting the invariant stated by the claim and by the remarks of the
class itself. -/
theorem C8_add_settled_task_breaks_aggregate :
    (emptyCollection.add keyK (.success 5) true).state = .anyLoading
    ∧ (emptyCollection.add keyK (.success 5) true).anyLoading = false :=
  ⟨rfl, rfl⟩

/-- Claim C9: after the unsubscribe closure returned by listen runs, no
subsequent set-state invokes the removed callback, and running the closure
a second time leaves the listener set — and hence every future
notification — unchanged. -/
theorem C9_unsubscribe_removes_listener (r : AsyncResult Nat ErrorBase Unit)
    (options : AsyncResultListenerOptions) (ns : AsyncResultState Nat ErrorBase Unit) :
    ((((r.listen options).1.unsubscribe (r.listen options).2.1).setState ns).2.all
      (fun ev => ev.listenerId != (r.listen options).2.1)) = true
    ∧ ((r.listen options).1.unsubscribe (r.listen options).2.1).unsubscribe
        (r.listen options).2.1
      = (r.listen options).1.unsubscribe (r.listen options).2.1 := by
  constructor
  · rw [List.all_eq_true]
    intro ev hev
    simp only [AsyncResult.setState, List.mem_filterMap] at hev
    obtain ⟨en, hen, hsome⟩ := hev
    simp only [AsyncResult.unsubscribe, List.mem_filter] at hen
    obtain ⟨_, hne⟩ := hen
    split at hsome
    · cases hsome
      exact hne
    · cases hsome
  · simp only [AsyncResult.unsubscribe]
    rw [filter_twice]

/-- Claim C4 counterexample: with ttl 100, a fetch at time 0 settling at
time 10 stamps lastFetched 10; a get at time 200 starts an in-place
refetch (fetch 2) of the — still valid — entry; a further get at time 201
hits this valid entry while its AsyncResult is still loading, and starts
an additional third fetch, because the TTL check runs off lastFetched
regardless of the loading status. (The identical instance is still
returned, as the last conjunct records: only the no-additional-fetch part
of the claim fails.) -/
theorem C4_counterexample_ttl_evaluated_while_loading :
    (findAssoc c4get3.1.heap c4get3.2).getD .idle = .loading none
    ∧ (findAssoc c4get3.1.cache key5).map CacheItem.valid = some true
    ∧ c4get3.1.fetchLog = [5, 5]
    ∧ c4get4.1.fetchLog = [5, 5, 5]
    ∧ c4get4.2 = c4get3.2 :=
  ⟨rfl, rfl, rfl, rfl, rfl⟩

/-- Claim C4 amended: before the first settlement of an entry, lastFetched
is unset and the TTL check never fires: a get hitting a valid entry whose
first fetch is still pending, under the omitted-argument (no-refetch)
policy, returns the identical AsyncResult instance and leaves the cache —
in particular the fetch log — unchanged; hence two gets with the same
params issued while the first fetch is pending cause exactly one fetcher
invocation. (Once an earlier settlement has stamped lastFetched, the TTL
is evaluated even while a refetch is in flight and can start an
additional fetch; see the counterexample.) -/
theorem C4_amended_first_fetch_not_ttl_refetched
    (c : KeyedAsyncCache Nat Nat ErrorBase) (params : Nat) (now : Nat)
    (item : CacheItem Nat)
    (h1 : findAssoc c.cache (c.paramsToKey params) = some item)
    (h2 : item.valid = true) (h3 : item.lastFetched = none) :
    c.get params none now = (c, item.resultId) := by
  obtain ⟨rid, fp, va, lf, tt⟩ := item
  simp only at h2 h3
  subst h2
  subst h3
  unfold KeyedAsyncCache.get
  simp only [Option.getD, h1]
  have hsr : c.shouldRefetch ⟨rid, fp, true, none, tt⟩ _defaultRefetchOptions now = false := by
    unfold KeyedAsyncCache.shouldRefetch
    cases tt <;> simp [_defaultRefetchOptions]
  rw [hsr]
  simp

/-- Witness for the amended C4: on the cache holding one pending first
fetch for params 7, a second get returns the same instance and the cache
unchanged. -/
theorem C4_amended_witness :
    c4pending.get 7 none 3 = (c4pending, item7.resultId) :=
  C4_amended_first_fetch_not_ttl_refetched c4pending 7 3 item7
    (by decide) (by decide) (by decide)

/-- Claim C7: invalidateParams marks the entry invalid but keeps it in the
cache; the next get with those params — whatever refetch argument and
whatever clock value — returns the same AsyncResult instance, re-invokes
the fetcher exactly once, leaves the entry in place, and puts that same
instance into loading state (refetch in place). -/
theorem C7_invalidate_forces_in_place_refetch
    (c : KeyedAsyncCache Nat Nat ErrorBase) (params : Nat) (now : Nat)
    (ro : Option KeyedAsyncCacheRefetchOptions) (item : CacheItem Nat)
    (h1 : findAssoc c.cache (c.paramsToKey params) = some item) :
    findAssoc (c.invalidateParams params).cache (c.paramsToKey params)
      = some { item with valid := false }
    ∧ ((c.invalidateParams params).get params ro now).2 = item.resultId
    ∧ ((c.invalidateParams params).get params ro now).1.cache
      = (c.invalidateParams params).cache
    ∧ ((c.invalidateParams params).get params ro now).1.fetchLog
      = c.fetchLog ++ [params]
    ∧ findAssoc ((c.invalidateParams params).get params ro now).1.heap item.resultId
      = some (.loading none) := by
  obtain ⟨pk, cttl, ccache, cheap, cid, clog⟩ := c
  unfold KeyedAsyncCache.invalidateParams KeyedAsyncCache.invalidateKey at *
  simp only at h1 ⊢
  rw [h1]
  simp only
  have hfind : findAssoc (setAssoc ccache (pk params) { item with valid := false }) (pk params)
      = some { item with valid := false } := findAssoc_setAssoc_self ccache (pk params) _
  refine ⟨hfind, ?_⟩
  unfold KeyedAsyncCache.get
  simp only [hfind]
  have hsr : KeyedAsyncCache.shouldRefetch
      ⟨pk, cttl, setAssoc ccache (pk params) { item with valid := false }, cheap, cid, clog⟩
      { item with valid := false } (ro.getD _defaultRefetchOptions) now = true := by
    unfold KeyedAsyncCache.shouldRefetch
    simp
  rw [hsr]
  simp only [KeyedAsyncCache.updateOrCreateCacheItemFromParams]
  refine ⟨rfl, rfl, rfl, ?_⟩
  exact findAssoc_setAssoc_self cheap item.resultId _

/-- Witness for C7 on a concrete one-entry cache: invalidate params 5 and
get again. -/
theorem C7_witness :
    findAssoc (c7base.invalidateParams 5).cache (c7base.paramsToKey 5)
      = some { item5 with valid := false }
    ∧ ((c7base.invalidateParams 5).get 5 none 999).2 = item5.resultId
    ∧ ((c7base.invalidateParams 5).get 5 none 999).1.cache
      = (c7base.invalidateParams 5).cache
    ∧ ((c7base.invalidateParams 5).get 5 none 999).1.fetchLog
      = c7base.fetchLog ++ [5]
    ∧ findAssoc ((c7base.invalidateParams 5).get 5 none 999).1.heap item5.resultId
      = some (.loading none) :=
  C7_invalidate_forces_in_place_refetch c7base 5 999 none item5 (by decide)

/-- Claim C10: get and getSettledState called without a refetch argument
behave exactly as with the explicit no-refetch policy: the omitted
argument defaults to _defaultRefetchOptions, whose policy is no-refetch. -/
theorem C10_omitted_refetch_defaults_to_noRefetch
    (c : KeyedAsyncCache Nat Nat ErrorBase) (params : Nat) (now : Nat)
    (outcome : PromiseOutcome (Result Nat ErrorBase) ErrorBase) :
    c.get params none now = c.get params (some ⟨.noRefetch⟩) now
    ∧ c.getSettledState params none now outcome
      = c.getSettledState params (some ⟨.noRefetch⟩) now outcome :=
  ⟨rfl, rfl⟩

end Unwrapped
